import Mathlib

set_option maxRecDepth 8000

namespace SitrWeb

/-!
Shallow embedding of the submission / polling / cancellation core of the
sitr-website repository (src/web/src/app/page.tsx plus the two API route
files src/unnamed/part_000 and src/unnamed/part_001).

Modelling conventions, stated once:

* The client is single threaded and cooperative: control can change hands
  only at an await (a suspension point).  We count suspension points with a
  clock t : Nat that advances by one at every await (fetch, body read,
  sleep).  A cancellation (AbortController.abort) can only be triggered by
  another event handler, hence only while the loop is suspended; we model
  the whole cancellation schedule by a single number a, read as: the abort
  happens during the await that ends at time a.  Thus the aborted flag,
  observed at any synchronous point after n completed awaits, is a <= n.
  a larger than every time reached in a run means no cancellation.

* The fetch at line 79 of page.tsx is given the controller signal, so an
  abort raised while that fetch is suspended rejects the fetch promise and
  control enters the catch block.  An abort raised while a body read
  (response.json(), response.blob()) is suspended rejects that read.  In
  the branch at lines 96-101 the read is response.json().catch(() => null),
  so the rejection is swallowed inline and execution continues with a null
  payload; in the branches at lines 105-110 and 112-117 the rejection
  propagates to the outer catch block at line 125.

* The JavaScript truthiness test (payload?.error || default) treats a
  missing field and an empty string alike; jsOr below reproduces that.

* Each terminal emission of the loop is one of the adjacent setState pairs
  in the source; we record it as a single emit event carrying a PollOutcome.
-/

/-- POLL_INTERVAL_MS from page.tsx line 9. -/
def POLL_INTERVAL_MS : Nat := 2000

/-- MAX_POLLS from page.tsx line 10. -/
def MAX_POLLS : Nat := 45

/-- Terminal outcomes of the poll loop.  failure msg is the pair
setErrorMessage msg / setStatus error; success is setResultUrl of an object
URL for the received blob together with setStatus success; timedOut is the
emission at lines 147-148. -/
inductive PollOutcome where
  | failure (msg : String)
  | success (bytes : List Nat) (contentType : String)
  | timedOut (msg : String)
  deriving DecidableEq

/-- One response of the /api/result proxy as the loop observes it:
HTTP status, content type header, raw body bytes, and the result of parsing
the body as JSON (none if the body is not valid JSON; some e if it is, with
e the value of its error field, where e = none means the field is absent). -/
structure Resp where
  status : Nat
  contentType : String
  bodyBytes : List Nat
  jsonErr : Option (Option String)
  deriving DecidableEq

/-- Outcome of one status-query fetch: either a transport exception or a
response. -/
inductive FetchOutcome where
  | netErr
  | resp (r : Resp)
  deriving DecidableEq

/-- Observable events of one poll-loop run, each stamped with the
suspension-point clock value at which it happens.  query t i is the fetch of
attempt i issued at time t; checkA t b is an explicit controller.signal.aborted
check reading b; sleepE t ms trailing is a sleep of ms milliseconds starting
at time t, with trailing = true only for the sleep in the dead block at lines
135-143; bodyRead t is a body read finishing at time t; emit t o is a terminal
state mutation. -/
inductive Ev where
  | query (t i : Nat)
  | checkA (t : Nat) (aborted : Bool)
  | sleepE (t ms : Nat) (trailing : Bool)
  | bodyRead (t : Nat)
  | emit (t : Nat) (o : PollOutcome)
  deriving DecidableEq

/-- Control result of one try/catch body: return from pollForResult, continue
the for loop at the given time, or fall through to the code after the
try/catch at the given time. -/
inductive Ctl where
  | ret
  | cont (t : Nat)
  | fall (t : Nat)
  deriving DecidableEq

/-- Aborted flag observed after t completed awaits, for abort schedule a. -/
def abd (a t : Nat) : Bool := decide (a ≤ t)

/-- JavaScript x || d for an optional string x: missing and empty are falsy. -/
def jsOr (o : Option String) (d : String) : String :=
  match o with
  | some s => if s = "" then d else s
  | none => d

/-- Whether the first character list starts the second. -/
def startsL : List Char → List Char → Bool
  | [], _ => true
  | _ :: _, [] => false
  | a :: as, b :: bs => a = b && startsL as bs

/-- Whether the first character list occurs inside the second. -/
def containsL (pat : List Char) : List Char → Bool
  | [] => startsL pat []
  | b :: bs => startsL pat (b :: bs) || containsL pat bs

/-- contentType.includes "application/json" (page.tsx line 105). -/
def includesJson (ct : String) : Bool :=
  containsL "application/json".data ct.data

/-- response.ok: status in the range 200-299. -/
def isOk (st : Nat) : Bool := decide (200 ≤ st ∧ st ≤ 299)

/-- One execution of the try/catch body of the for loop (page.tsx lines
78-133) for attempt i, starting at time t, under abort schedule a, with resp
giving the backend reply to each attempt.  The fetch occupies the await
ending at time t+1; a body read or the in-branch sleep occupies the await
ending at time t+2. -/
def attemptStep (resp : Nat → FetchOutcome) (a i t : Nat) : List Ev × Ctl :=
  if abd a (t+1) then
    ([.query t i, .checkA (t+1) true], .ret)
  else
    match resp i with
    | .netErr =>
      ([.query t i, .checkA (t+1) false,
        .emit (t+1) (.failure "Lost connection to the processor.")], .ret)
    | .resp r =>
      if r.status = 202 then
        if abd a (t+2) then
          ([.query t i, .checkA (t+1) false,
            .sleepE (t+1) POLL_INTERVAL_MS false, .checkA (t+2) true], .ret)
        else
          ([.query t i, .checkA (t+1) false,
            .sleepE (t+1) POLL_INTERVAL_MS false, .checkA (t+2) false],
           .cont (t+2))
      else if isOk r.status = false then
        ([.query t i, .bodyRead (t+2),
          .emit (t+2) (.failure (jsOr
            (if abd a (t+2) then none
             else match r.jsonErr with | some e => e | none => none)
            "Processing failed."))], .ret)
      else if includesJson r.contentType then
        if abd a (t+2) then
          ([.query t i, .bodyRead (t+2), .checkA (t+2) true], .ret)
        else
          match r.jsonErr with
          | none =>
            ([.query t i, .bodyRead (t+2), .checkA (t+2) false,
              .emit (t+2) (.failure "Lost connection to the processor.")], .ret)
          | some e =>
            ([.query t i, .bodyRead (t+2),
              .emit (t+2) (.failure (jsOr e "Processing failed."))], .ret)
      else
        if abd a (t+2) then
          ([.query t i, .bodyRead (t+2), .checkA (t+2) true], .ret)
        else if r.bodyBytes.length = 0 then
          ([.query t i, .bodyRead (t+2),
            .emit (t+2) (.failure "Received an empty file.")], .ret)
        else
          ([.query t i, .bodyRead (t+2),
            .emit (t+2) (.success r.bodyBytes r.contentType)], .ret)

/-- The for loop of pollForResult (page.tsx lines 73-144) followed by the
final timeout emission (lines 146-149).  fuel is the number of remaining
attempts, i the attempt index, t the clock.  The fall branch translates the
code after the try/catch (lines 135-143); it is kept because it is present
in the source even though no branch of the try/catch produces fall. -/
def pollGo (resp : Nat → FetchOutcome) (a : Nat) : Nat → Nat → Nat → List Ev
  | _, t, 0 =>
    .checkA t (abd a t) ::
      (if abd a t then []
       else [.emit t (.timedOut "Timed out while waiting for the model.")])
  | i, t, fuel+1 =>
    if abd a t then [.checkA t true]
    else
      .checkA t false ::
        (match attemptStep resp a i t with
         | (evs, .ret) => evs
         | (evs, .cont u) => evs ++ pollGo resp a (i+1) u fuel
         | (evs, .fall u) =>
           evs ++
             (if i < MAX_POLLS - 1 then
               .checkA u (abd a u) ::
                 (if abd a u then []
                  else
                    .sleepE u POLL_INTERVAL_MS true ::
                      .checkA (u+1) (abd a (u+1)) ::
                        (if abd a (u+1) then []
                         else pollGo resp a (i+1) (u+1) fuel))
              else pollGo resp a (i+1) u fuel))

/-- pollForResult (page.tsx lines 68-150): run the loop from attempt 0,
time 0, with MAX_POLLS attempts of fuel.  The AbortController swap at lines
69-71 belongs to the coordinator model below. -/
def pollForResult (resp : Nat → FetchOutcome) (a : Nat) : List Ev :=
  pollGo resp a 0 0 MAX_POLLS

def isQuery : Ev → Bool
  | .query _ _ => true
  | _ => false

def isSleep : Ev → Bool
  | .sleepE _ _ _ => true
  | _ => false

def isTrailingSleep : Ev → Bool
  | .sleepE _ _ b => b
  | _ => false

def isFall : Ctl → Bool
  | .fall _ => true
  | _ => false

/-- The sequence of terminal outcomes emitted in a trace. -/
def emitted (l : List Ev) : List PollOutcome :=
  l.filterMap (fun e => match e with | .emit _ o => some o | _ => none)

/-!
Session state coordinator (the Home component of page.tsx).

Operations are modelled at the granularity the spec itself uses: each UI
action (handleFileChange, handleSubmit, handleReset) is one atomic
transition, and a poll-loop terminal outcome is a separate asynchronous
event, allowed only while a live (non-aborted) loop exists, which we track
with the flag pollLive.  A cancelled loop delivers nothing here; the one
way the real code deviates from that discipline is the subject of claim C1
and is treated there on the fine-grained loop model.

Revocable object-URL handles: each kind (preview, result) has a slot
holding the current handle, a counter of handles created so far (handles
are numbered 0, 1, ...), and a ledger listing every revocation call, one
list entry per call to URL.revokeObjectURL with a non-null argument.
Replacing or clearing a non-null slot revokes the old handle twice: once
inline (resetObjectUrl at the call site) and once by the cleanup of the
useEffect whose dependency array names the slot (page.tsx lines 28-38):
when the slot value changes, React runs the previous cleanup closure, which
still holds the old value, so resetObjectUrl runs on it again.  Component
teardown (unmount) runs the cleanups once with the current values.
-/

inductive Status where
  | idle
  | uploading
  | processing
  | success
  | error
  deriving DecidableEq

/-- Replace the handle in a slot by a fresh one: the old handle, if any, is
revoked inline and again by the effect cleanup. -/
def slotReplace (slot : Option Nat) (next : Nat) (revs : List Nat) :
    Option Nat × Nat × List Nat :=
  match slot with
  | some o => (some next, next+1, revs ++ [o, o])
  | none => (some next, next+1, revs)

/-- Clear a slot: a non-null handle is revoked inline and again by the
effect cleanup; a null slot changes nothing (resetObjectUrl ignores null and
React re-runs no effect when the value is unchanged). -/
def slotClear (slot : Option Nat) (revs : List Nat) :
    Option Nat × List Nat :=
  match slot with
  | some o => (none, revs ++ [o, o])
  | none => (none, revs)

/-- The component state: the five useState fields of page.tsx lines 14-18,
the liveness of the current poll loop (pollControllerRef not yet aborted and
a loop running on it), and the handle ledgers. -/
structure CState where
  status : Status
  errMsg : Option String
  selectedFile : Bool
  previewUrl : Option Nat
  prevNext : Nat
  prevRevs : List Nat
  resultUrl : Option Nat
  resNext : Nat
  resRevs : List Nat
  pollLive : Bool
  deriving DecidableEq

/-- handleFileChange (page.tsx lines 46-66).  file = false is the event with
no file selected.  Lines 48-50 always clear the error message, set status
idle and abort the poll token; with no file, lines 51-56 clear the file and
the preview and leave resultUrl untouched; with a file, lines 58-65 replace
the preview and clear the result. -/
def handleFileChange (file : Bool) (s : CState) : CState :=
  let s1 : CState := {s with errMsg := none, status := .idle, pollLive := false}
  if file = false then
    let (p, pr) := slotClear s1.previewUrl s1.prevRevs
    {s1 with selectedFile := false, previewUrl := p, prevRevs := pr}
  else
    let (p, pn, pr) := slotReplace s1.previewUrl s1.prevNext s1.prevRevs
    let (r, rr) := slotClear s1.resultUrl s1.resRevs
    {s1 with
      selectedFile := true
      previewUrl := p
      prevNext := pn
      prevRevs := pr
      resultUrl := r
      resRevs := rr}

/-- Result of the submit fetch (page.tsx lines 169-194): transport throw,
non-ok reply carrying an optional error message, ok reply without a truthy
taskId, or ok reply with a taskId. -/
inductive SubmitOutcome where
  | netErr
  | backendErr (m : Option String)
  | protoErr
  | ok
  deriving DecidableEq

/-- handleSubmit (page.tsx lines 152-195), atomically composed with the
delivery of its fetch outcome.  Returns the new state and the number of
network calls performed.  With no selected file (lines 154-157) only the
error message is set; otherwise lines 159-164 set status uploading and clear
the result handle, and the outcome is applied as in lines 176-193. -/
def handleSubmit (o : SubmitOutcome) (s : CState) : CState × Nat :=
  if s.selectedFile = false then
    ({s with errMsg := some "Please choose an image before checking."}, 0)
  else
    let (r, rr) := slotClear s.resultUrl s.resRevs
    let s1 : CState := {s with
      errMsg := none
      status := .uploading
      resultUrl := r
      resRevs := rr}
    match o with
    | .netErr =>
      ({s1 with
        errMsg := some "Upload failed. Please try again."
        status := .error}, 1)
    | .backendErr m =>
      ({s1 with
        errMsg := some (jsOr m "Unable to contact the model.")
        status := .error}, 1)
    | .protoErr =>
      ({s1 with
        errMsg := some "Missing task information from the backend."
        status := .error}, 1)
    | .ok => ({s1 with status := .processing, pollLive := true}, 1)

/-- A terminal outcome delivered by the live poll loop: a failure message
(covering the non-ok, json-error and empty-body emissions), a successful
result, or the timeout emission. -/
inductive PollDeliver where
  | fail (m : String)
  | succ
  | timedOutD
  deriving DecidableEq

/-- Delivery of a poll-loop terminal outcome to the session state
(the setState pairs inside pollForResult).  Nothing is delivered unless a
live loop exists. -/
def pollDeliver (d : PollDeliver) (s : CState) : CState :=
  if s.pollLive = false then s
  else
    match d with
    | .fail m => {s with errMsg := some m, status := .error, pollLive := false}
    | .timedOutD =>
      {s with
        errMsg := some "Timed out while waiting for the model."
        status := .error
        pollLive := false}
    | .succ =>
      let (r, rn, rr) := slotReplace s.resultUrl s.resNext s.resRevs
      {s with
        resultUrl := r
        resNext := rn
        resRevs := rr
        status := .success
        pollLive := false}

/-- handleReset (page.tsx lines 197-211): clear the file, revoke and clear
both handles, clear the message, set status idle, abort the poll token. -/
def handleReset (s : CState) : CState :=
  let (p, pr) := slotClear s.previewUrl s.prevRevs
  let (r, rr) := slotClear s.resultUrl s.resRevs
  {s with
    selectedFile := false
    previewUrl := p
    prevRevs := pr
    resultUrl := r
    resRevs := rr
    errMsg := none
    status := .idle
    pollLive := false}

/-- The single revocation a final cleanup performs on a slot. -/
def tdApp (slot : Option Nat) : List Nat :=
  match slot with
  | some o => [o]
  | none => []

/-- Component teardown (the unmount run of the effect cleanups, page.tsx
lines 28-44): revoke the current handle of each kind once and abort the
poll token. -/
def teardown (s : CState) : CState :=
  {s with
    prevRevs := s.prevRevs ++ tdApp s.previewUrl
    resRevs := s.resRevs ++ tdApp s.resultUrl
    previewUrl := none
    resultUrl := none
    pollLive := false}

/-- Coordinator operations: select a file or none, submit (with the fetch
outcome the environment will produce), delivery of a poll outcome, reset. -/
inductive Op where
  | select (file : Bool)
  | submit (o : SubmitOutcome)
  | deliver (d : PollDeliver)
  | reset
  deriving DecidableEq

/-- One coordinator step.  The submit button is disabled while status is
uploading or processing (page.tsx line 281), so a submit in those states is
a no-op. -/
def step (op : Op) (s : CState) : CState :=
  match op with
  | .select f => handleFileChange f s
  | .submit o =>
    if s.status = .uploading ∨ s.status = .processing then s
    else (handleSubmit o s).1
  | .deliver d => pollDeliver d s
  | .reset => handleReset s

/-- The initial component state. -/
def init0 : CState :=
  ⟨.idle, none, false, none, 0, [], none, 0, [], false⟩

/-- Run a sequence of coordinator operations from the initial state. -/
def run (ops : List Op) : CState :=
  ops.foldl (fun s op => step op s) init0

/-!
The /api/analyze route (src/unnamed/part_000, the POST handler).
-/

/-- The JSON payload of the backend reply to POST /process_image, as the
route reads it: an optional error field and an optional task_id field. -/
structure AnalyzeJson where
  error : Option String
  task_id : Option String
  deriving DecidableEq

/-- The reply of the Python backend to the proxied submit call: a transport
throw, or a status with a body (none when the body is not valid JSON). -/
inductive BackendReply where
  | throwE
  | reply (status : Nat) (payload : Option AnalyzeJson)
  deriving DecidableEq

/-- The classified result of the POST handler, one constructor per return
site of src/unnamed/part_000. -/
inductive AnalyzeResult where
  | configError (m : String)
  | validationError (m : String)
  | networkError (m : String)
  | backendError (st : Nat) (m : String)
  | protocolError (m : String)
  | okTask (id : String)
  deriving DecidableEq

/-- JavaScript truthiness for an optional string: empty string is falsy. -/
def truthy (o : Option String) : Option String :=
  match o with
  | some s => if s = "" then none else some s
  | none => none

/-- payload?.task_id as a truthy value. -/
def getTaskId (p : Option AnalyzeJson) : Option String :=
  match p with
  | none => none
  | some j => truthy j.task_id

/-- payload?.error as a truthy value. -/
def getErr (p : Option AnalyzeJson) : Option String :=
  match p with
  | none => none
  | some j => truthy j.error

/-- The POST handler of src/unnamed/part_000, lines 8-69: configuration
check, file check, proxied call, then classification of the backend reply
in source order. -/
def analyzeCore (cfg : Option String) (file : Bool) (b : BackendReply) :
    AnalyzeResult :=
  if truthy cfg = none then
    .configError "Missing HIJAB_BACKEND_URL configuration."
  else if file = false then
    .validationError "Image file is required."
  else
    match b with
    | .throwE => .networkError "Unable to reach hijab processor backend."
    | .reply st p =>
      if isOk st = false then
        .backendError st (jsOr (getErr p) "Failed to start processing.")
      else
        match getTaskId p with
        | none => .protocolError "Backend did not return a task_id."
        | some id => .okTask id

/-- Body of the HTTP response the route produces. -/
inductive RBody where
  | errB (m : String)
  | taskB (id : String)
  deriving DecidableEq

/-- The literal HTTP response (status, body) of each return site of the
POST handler. -/
def toResp : AnalyzeResult → Nat × RBody
  | .configError m => (500, .errB m)
  | .validationError m => (400, .errB m)
  | .networkError m => (502, .errB m)
  | .backendError st m => (st, .errB m)
  | .protocolError m => (502, .errB m)
  | .okTask id => (202, .taskB id)

/-- The POST handler as the HTTP response it sends. -/
def analyzePOST (cfg : Option String) (file : Bool) (b : BackendReply) :
    Nat × RBody :=
  toResp (analyzeCore cfg file b)

/-!
Concrete backend oracles and expected traces used by the theorems.
-/

/-- A backend that answers 202 to every status query. -/
def respAll202 : Nat → FetchOutcome :=
  fun _ => .resp ⟨202, "application/json", [], some none⟩

/-- A backend that answers 500 with a JSON error body to every query. -/
def resp500 : Nat → FetchOutcome :=
  fun _ => .resp ⟨500, "application/json", [], some (some "server broke")⟩

/-- A backend that answers 200 with an empty binary body. -/
def respEmpty : Nat → FetchOutcome :=
  fun _ => .resp ⟨200, "image/png", [], none⟩

/-- A backend that answers 200 with a ten byte png body. -/
def respPng : Nat → FetchOutcome :=
  fun _ => .resp ⟨200, "image/png", [1,2,3,4,5,6,7,8,9,10], none⟩

/-- A backend that answers 200 with JSON body containing an error field. -/
def respJsonErr : Nat → FetchOutcome :=
  fun _ => .resp ⟨200, "application/json", [], some (some "bad input")⟩

/-- A backend that answers 200 with JSON body without an error field. -/
def respJsonNoErr : Nat → FetchOutcome :=
  fun _ => .resp ⟨200, "application/json", [], some none⟩

/-- Whether a fetch outcome is a 202 response. -/
def is202 : FetchOutcome → Bool
  | .resp r => decide (r.status = 202)
  | .netErr => false

/-- The events of one uncancelled 202 iteration of the loop, attempt i
starting at time t: top-of-loop check, query, pre-sleep check, the interval
sleep, post-sleep check. -/
def seg202 (i t : Nat) : List Ev :=
  [.checkA t false, .query t i, .checkA (t+1) false,
   .sleepE (t+1) POLL_INTERVAL_MS false, .checkA (t+2) false]

/-- The expected trace of f uncancelled 202 iterations starting at attempt i
and time t, followed by the final check and the timeout emission. -/
def expected202 : Nat → Nat → Nat → List Ev
  | 0, _, t =>
    [.checkA t false,
     .emit t (.timedOut "Timed out while waiting for the model.")]
  | f+1, i, t => seg202 i t ++ expected202 f (i+1) (t+2)

/-- The session-state invariant carried through the coordinator induction:
the amended relation between resultUrl and status, strengthened with the
auxiliary fact that a live poll loop implies no result handle. -/
def InvC3 (s : CState) : Prop :=
  (s.status = .success → s.resultUrl.isSome = true) ∧
  (s.resultUrl.isSome = true → s.status = .success ∨ s.status = .idle) ∧
  (s.pollLive = true → s.resultUrl = none)

/-- The handle-ledger invariant for one kind: the slot holds a created,
never revoked handle; every other created handle has received exactly two
revocation calls (inline plus effect cleanup); uncreated ids have none. -/
def ledgerOk (slot : Option Nat) (next : Nat) (revs : List Nat) : Prop :=
  (∀ o, slot = some o → o < next ∧ revs.count o = 0) ∧
  (∀ id, id < next → slot ≠ some id → revs.count id = 2) ∧
  (∀ id, next ≤ id → revs.count id = 0)

/-- Both handle ledgers of the component satisfy ledgerOk. -/
def InvC8 (s : CState) : Prop :=
  ledgerOk s.previewUrl s.prevNext s.prevRevs ∧
  ledgerOk s.resultUrl s.resNext s.resRevs

/-!
Helper lemmas.
-/

theorem abd_false {a t : Nat} (h : t < a) : abd a t = false := by
  simp only [abd, decide_eq_false_iff_not]
  omega

/-- A backend that always answers 202 drives the uncancelled loop through
exactly one query, one interval sleep and the surrounding checks per unit of
fuel, then the timeout emission. -/
theorem pollGo_all202 (resp : Nat → FetchOutcome)
    (h : ∀ j, is202 (resp j) = true) :
    ∀ f i t, t + 2*f < 1000 →
      pollGo resp 1000 i t f = expected202 f i t := by
  intro f
  induction f with
  | zero =>
    intro i t hb
    have h0 : abd 1000 t = false := abd_false (by omega)
    simp [pollGo, expected202, h0]
  | succ f ih =>
    intro i t hb
    have h0 : abd 1000 t = false := abd_false (by omega)
    have h1 : abd 1000 (t+1) = false := abd_false (by omega)
    have h2 : abd 1000 (t+2) = false := abd_false (by omega)
    cases hr : resp i with
    | netErr =>
      have := h i
      rw [hr] at this
      simp [is202] at this
    | resp r =>
      have hst : r.status = 202 := by
        have := h i
        rw [hr] at this
        simpa [is202] using this
      rw [show f + 1 = Nat.succ f from rfl]
      simp only [pollGo, attemptStep, h0, h1, h2, hr, hst, expected202,
        seg202, if_true, if_false, Bool.false_eq_true, if_neg, reduceIte]
      simp only [List.cons_append, List.nil_append, List.append_assoc]
      rw [ih (i+1) (t+2) (by omega)]

/-- If the loop body returns, the iteration contributes the top-of-loop
check followed by the events of the body. -/
theorem pollGo_first_ret (resp : Nat → FetchOutcome) (a i t fuel : Nat)
    (h : abd a t = false) (hstep : (attemptStep resp a i t).2 = Ctl.ret) :
    pollGo resp a i t (fuel+1) = .checkA t false :: (attemptStep resp a i t).1 := by
  rw [show fuel + 1 = Nat.succ fuel from rfl]
  simp only [pollGo, h, Bool.false_eq_true, if_false]
  rcases hp : attemptStep resp a i t with ⟨evs, ctl⟩
  rw [hp] at hstep
  simp at hstep
  subst hstep
  simp

/-!
Claim theorems.
-/

/-- Claim C1 (code bug): the claim states that once the cancellation token
is aborted the loop performs no further session-state mutation.  The code
violates this: if the token is aborted while the loop is suspended in the
body read of a non-ok response (the response.json().catch(() => null) at
line 97 of page.tsx), the rejection of the read is swallowed by the inline
catch and the state mutation at lines 98-99 still runs.  Concretely, with
the first query answered 500 and the abort raised during that body read
(abort time 2), the loop emits the failure mutation at time 2, at which the
aborted flag already reads true. -/
theorem C1_cancelled_loop_still_mutates :
    pollForResult resp500 2 =
      [.checkA 0 false, .query 0 0, .bodyRead 2,
       .emit 2 (.failure "Processing failed.")] ∧
    abd 2 2 = true := by decide

/-- Claim C2 (amended): against a backend that replies 202 to every status
query, the uncancelled loop issues exactly MAX_POLLS = 45 queries, each
followed by a sleep of POLL_INTERVAL_MS = 2000 with the token re-checked
before and after the sleep (so consecutive queries are separated by such a
sleep), and finally emits the Timeout outcome and nothing else.  Amendment:
the 202 branch sleeps unconditionally, so a 45th sleep also follows the
last query, before the Timeout emission. -/
theorem C2_always202_trace (resp : Nat → FetchOutcome)
    (h : ∀ j, is202 (resp j) = true) :
    pollForResult resp 1000 = expected202 MAX_POLLS 0 0 ∧
    (pollForResult resp 1000).countP isQuery = MAX_POLLS ∧
    (pollForResult resp 1000).countP isSleep = MAX_POLLS ∧
    emitted (pollForResult resp 1000) =
      [.timedOut "Timed out while waiting for the model."] := by
  have he : pollForResult resp 1000 = expected202 MAX_POLLS 0 0 := by
    have := pollGo_all202 resp h MAX_POLLS 0 0 (by decide)
    simpa [pollForResult] using this
  refine ⟨he, ?_, ?_, ?_⟩ <;> rw [he] <;> decide

/-- Claim C2 witness: the canonical always-202 backend realizes the trace. -/
theorem C2_always202_witness :
    pollForResult respAll202 1000 = expected202 MAX_POLLS 0 0 :=
  (C2_always202_trace respAll202 (fun _ => rfl)).1

/-- Claim C2 counterexample: the loop makes its 45 queries, but after the
45th and last query, when no attempts remain, it still sleeps once before
emitting Timeout, refuting the clause that it sleeps only when attempts
remain. -/
theorem C2_counterexample :
    (pollForResult respAll202 1000).countP isQuery = MAX_POLLS ∧
    ((pollForResult respAll202 1000).reverse.takeWhile
      (fun e => !(isQuery e))).countP isSleep = 1 := by decide

/-- Claim C5 (amended): a success-status (2xx, non-202) response with a
non-JSON body makes the uncancelled loop stop at once: with a zero-length
body it emits the failure whose message is the literal string of the code,
Received an empty file. (the claim writes the message as empty result);
otherwise it emits Success carrying exactly the body bytes and the content
type. -/
theorem C5_binary_body (resp : Nat → FetchOutcome) (r : Resp)
    (hr : resp 0 = .resp r) (hok : isOk r.status = true)
    (h202 : r.status ≠ 202) (hct : includesJson r.contentType = false) :
    (r.bodyBytes.length = 0 →
      pollForResult resp 1000 =
        [.checkA 0 false, .query 0 0, .bodyRead 2,
         .emit 2 (.failure "Received an empty file.")]) ∧
    (r.bodyBytes.length ≠ 0 →
      pollForResult resp 1000 =
        [.checkA 0 false, .query 0 0, .bodyRead 2,
         .emit 2 (.success r.bodyBytes r.contentType)]) := by
  have hstep : attemptStep resp 1000 0 0 =
      (if r.bodyBytes.length = 0 then
        ([.query 0 0, .bodyRead 2,
          .emit 2 (.failure "Received an empty file.")], Ctl.ret)
       else
        ([.query 0 0, .bodyRead 2,
          .emit 2 (.success r.bodyBytes r.contentType)], Ctl.ret)) := by
    simp [attemptStep, hr, hok, h202, hct, abd]
  constructor <;> intro hb
  · rw [pollForResult, show MAX_POLLS = 44 + 1 from rfl,
      pollGo_first_ret resp 1000 0 0 44 (by decide) (by rw [hstep]; simp [hb]),
      hstep]
    simp [hb]
  · rw [pollForResult, show MAX_POLLS = 44 + 1 from rfl,
      pollGo_first_ret resp 1000 0 0 44 (by decide) (by rw [hstep]; simp [hb]),
      hstep]
    simp [hb]

/-- Claim C5 witness: a 200 reply with a ten byte png body yields Success
with exactly those bytes and that content type, and the loop stops. -/
theorem C5_binary_body_witness :
    pollForResult respPng 1000 =
      [.checkA 0 false, .query 0 0, .bodyRead 2,
       .emit 2 (.success [1,2,3,4,5,6,7,8,9,10] "image/png")] :=
  (C5_binary_body respPng ⟨200, "image/png", [1,2,3,4,5,6,7,8,9,10], none⟩
    rfl (by decide) (by decide) (by decide)).2 (by decide)

/-- Claim C5 counterexample: on a zero-length binary body the emitted
failure message is the string Received an empty file., not the string
empty result stated by the claim. -/
theorem C5_counterexample :
    emitted (pollForResult respEmpty 1000) =
      [.failure "Received an empty file."] ∧
    "Received an empty file." ≠ "empty result" := by decide

/-- Claim C6 (amended): a success-status (2xx, non-202) response whose
content type is JSON and whose body parses as JSON makes the uncancelled
loop emit Failure, never Success, with the message taken from the error
field of the body when that field is truthy and the literal string
Processing failed. otherwise (the claim writes the fallback message as
processing failed), and the loop stops. -/
theorem C6_json_body (resp : Nat → FetchOutcome) (r : Resp)
    (e : Option String)
    (hr : resp 0 = .resp r) (hok : isOk r.status = true)
    (h202 : r.status ≠ 202) (hct : includesJson r.contentType = true)
    (hj : r.jsonErr = some e) :
    pollForResult resp 1000 =
      [.checkA 0 false, .query 0 0, .bodyRead 2,
       .emit 2 (.failure (jsOr e "Processing failed."))] ∧
    emitted (pollForResult resp 1000) =
      [.failure (jsOr e "Processing failed.")] := by
  have hstep : attemptStep resp 1000 0 0 =
      ([.query 0 0, .bodyRead 2,
        .emit 2 (.failure (jsOr e "Processing failed."))], Ctl.ret) := by
    simp [attemptStep, hr, hok, h202, hct, hj, abd]
  have he : pollForResult resp 1000 =
      [.checkA 0 false, .query 0 0, .bodyRead 2,
       .emit 2 (.failure (jsOr e "Processing failed."))] := by
    rw [pollForResult, show MAX_POLLS = 44 + 1 from rfl,
      pollGo_first_ret resp 1000 0 0 44 (by decide) (by rw [hstep]),
      hstep]
  exact ⟨he, by rw [he]; rfl⟩

/-- Claim C6 witness: a 2xx reply with JSON body whose error field is the
string bad input yields Failure with exactly that message, not Success. -/
theorem C6_json_body_witness :
    pollForResult respJsonErr 1000 =
      [.checkA 0 false, .query 0 0, .bodyRead 2,
       .emit 2 (.failure "bad input")] := by
  have := (C6_json_body respJsonErr
    ⟨200, "application/json", [], some (some "bad input")⟩
    (some "bad input") rfl (by decide) (by decide) (by decide) rfl).1
  simpa [jsOr] using this

/-- Claim C6 counterexample: when the JSON body has no error field the
emitted fallback message is the string Processing failed., not the string
processing failed stated by the claim. -/
theorem C6_counterexample :
    emitted (pollForResult respJsonNoErr 1000) =
      [.failure "Processing failed."] ∧
    "Processing failed." ≠ "processing failed" := by decide

/-- No branch of the try/catch body falls through to the code after it. -/
theorem attemptStep_no_fall (resp : Nat → FetchOutcome) (a i t : Nat) :
    isFall (attemptStep resp a i t).2 = false := by
  unfold attemptStep
  repeat' split
  all_goals rfl

/-- The try/catch body itself produces no trailing sleep event. -/
theorem attemptStep_no_trailing (resp : Nat → FetchOutcome) (a i t : Nat) :
    ((attemptStep resp a i t).1).countP isTrailingSleep = 0 := by
  unfold attemptStep
  repeat' split
  all_goals rfl

/-- Claim C10: the inter-attempt sleep block after the try/catch (page.tsx
lines 135-143) is dead code: every branch of the try block returns or
continues and the catch always returns (no branch yields fall), hence no
execution of the loop, for any backend behaviour and any abort schedule,
ever performs the trailing sleep; the only sleep between consecutive
queries is the one in the 202 branch. -/
theorem C10_trailing_block_unreachable :
    (∀ resp a i t, isFall (attemptStep resp a i t).2 = false) ∧
    (∀ resp a i t fuel,
      (pollGo resp a i t fuel).countP isTrailingSleep = 0) := by
  refine ⟨attemptStep_no_fall, ?_⟩
  intro resp a i t fuel
  induction fuel generalizing i t with
  | zero =>
    unfold pollGo
    split <;> rfl
  | succ f ih =>
    unfold pollGo
    by_cases h : abd a t = true
    · simp [h, isTrailingSleep]
    · simp only [Bool.not_eq_true] at h
      simp only [h, Bool.false_eq_true, if_false]
      rcases hp : attemptStep resp a i t with ⟨evs, ctl⟩
      have hevs : evs.countP isTrailingSleep = 0 := by
        have := attemptStep_no_trailing resp a i t
        rw [hp] at this
        exact this
      cases ctl with
      | ret =>
        simp [List.countP_cons, isTrailingSleep, hevs]
      | cont u =>
        simp [List.countP_cons, List.countP_append, isTrailingSleep, hevs,
          ih]
      | fall u =>
        have := attemptStep_no_fall resp a i t
        rw [hp] at this
        simp [isFall] at this

/-!
Coordinator invariants.
-/

/-- One coordinator step preserves the session-state invariant. -/
theorem invC3_step (op : Op) (s : CState) (h : InvC3 s) : InvC3 (step op s) := by
  rcases s with ⟨st, em, sf, pu, pn, pr, ru, rn, rr, pl⟩
  obtain ⟨h1, h2, h3⟩ := h
  cases op with
  | select f =>
    cases f <;> cases pu <;> cases ru <;>
      simp_all [step, handleFileChange, slotClear, slotReplace, InvC3]
  | submit o =>
    cases st <;> cases o <;> cases sf <;> cases ru <;>
      simp_all [step, handleSubmit, slotClear, InvC3]
  | deliver d =>
    cases pl <;> cases d <;> cases ru <;>
      simp_all [step, pollDeliver, slotReplace, InvC3]
  | reset =>
    cases pu <;> cases ru <;>
      simp_all [step, handleReset, slotClear, InvC3]

/-- Every reachable coordinator state satisfies the invariant. -/
theorem run_invC3 (ops : List Op) : InvC3 (run ops) := by
  suffices h : ∀ s, InvC3 s → InvC3 (ops.foldl (fun s op => step op s) s) by
    refine h init0 ?_
    simp [InvC3, init0]
  induction ops with
  | nil => intro s hs; exact hs
  | cons op ops ih => intro s hs; exact ih _ (invC3_step op s hs)

/-- Claim C3 (amended): in every session state reachable by interleaving
the coordinator operations, status success implies a non-null resultUrl,
and a non-null resultUrl implies status success or idle.  The idle case
arises because selecting no file from a success state resets the status but
leaves resultUrl in place, so the two-sided iff of the claim fails. -/
theorem C3_result_iff_success_amended (ops : List Op) :
    ((run ops).status = .success → (run ops).resultUrl.isSome = true) ∧
    ((run ops).resultUrl.isSome = true →
      (run ops).status = .success ∨ (run ops).status = .idle) :=
  ⟨(run_invC3 ops).1, (run_invC3 ops).2.1⟩

/-- Claim C3 witness: after select, successful submit and successful poll
delivery, status is success and the amended theorem yields a result handle. -/
theorem C3_result_iff_success_witness :
    (run [.select true, .submit .ok, .deliver .succ]).resultUrl.isSome = true :=
  (C3_result_iff_success_amended [.select true, .submit .ok, .deliver .succ]).1
    (by decide)

/-- Claim C3 counterexample: from a success state, a file-change event with
no file (lines 46-56 of page.tsx) sets status idle but leaves resultUrl
non-null, so resultUrl non-null does not imply status success. -/
theorem C3_counterexample :
    (run [.select true, .submit .ok, .deliver .succ, .select false]).status =
      Status.idle ∧
    (run [.select true, .submit .ok, .deliver .succ, .select false]).resultUrl =
      some 0 ∧
    Status.idle ≠ Status.success := by decide

/-- Claim C4 counterexample: calling the submit handler with no selected
file, from the initial state, sets the validation message but leaves status
idle; the claim that it sets status to error is false. -/
theorem C4_counterexample :
    (handleSubmit .ok init0).1.status = Status.idle ∧
    Status.idle ≠ Status.error ∧
    (handleSubmit .ok init0).1.errMsg =
      some "Please choose an image before checking." := by decide

/-- Claim C4 (amended): a submit with no selected file sets the validation
message, performs no network call, and changes nothing else: not the
status, not the handles, not the file, not the poll token. -/
theorem C4_submit_without_file (s : CState) (o : SubmitOutcome)
    (h : s.selectedFile = false) :
    handleSubmit o s =
      ({s with errMsg := some "Please choose an image before checking."}, 0) := by
  simp [handleSubmit, h]

/-- Claim C4 witness: the amended theorem evaluated at the initial state. -/
theorem C4_submit_without_file_witness :
    handleSubmit .netErr init0 =
      ({init0 with errMsg := some "Please choose an image before checking."}, 0) :=
  C4_submit_without_file init0 .netErr rfl

/-- Claim C9: handleReset is idempotent from every session state, and the
state it produces is the cleared one: status idle, no error message, no
selected file, no live handles, poll token cancelled. -/
theorem C9_reset_idempotent (s : CState) :
    handleReset (handleReset s) = handleReset s ∧
    (handleReset s).status = .idle ∧
    (handleReset s).errMsg = none ∧
    (handleReset s).selectedFile = false ∧
    (handleReset s).previewUrl = none ∧
    (handleReset s).resultUrl = none ∧
    (handleReset s).pollLive = false := by
  rcases s with ⟨st, em, sf, pu, pn, pr, ru, rn, rr, pl⟩
  cases pu <;> cases ru <;> simp [handleReset, slotClear]

/-!
Handle-ledger lemmas.
-/

theorem count_pair (o x : Nat) :
    ([o, o] : List Nat).count x = if x = o then 2 else 0 := by
  by_cases h : x = o <;> simp [h, List.count_cons]

theorem ledgerOk_replace {slot : Option Nat} {next : Nat} {revs : List Nat}
    (h : ledgerOk slot next revs) :
    ledgerOk (slotReplace slot next revs).1 (slotReplace slot next revs).2.1
      (slotReplace slot next revs).2.2 := by
  obtain ⟨h1, h2, h3⟩ := h
  cases slot with
  | none =>
    show ledgerOk (some next) (next+1) revs
    refine ⟨?_, ?_, ?_⟩
    · intro x hx
      injection hx with hx
      subst hx
      exact ⟨by omega, h3 _ (by omega)⟩
    · intro id hid hne
      have hne2 : next ≠ id := fun e => hne (congrArg some e)
      exact h2 id (by omega) (by simp)
    · intro id hid
      exact h3 id (by omega)
  | some o =>
    obtain ⟨holt, hocnt⟩ := h1 o rfl
    show ledgerOk (some next) (next+1) (revs ++ [o, o])
    refine ⟨?_, ?_, ?_⟩
    · intro x hx
      injection hx with hx
      subst hx
      refine ⟨by omega, ?_⟩
      rw [List.count_append, count_pair, h3 _ (by omega), if_neg (by omega)]
    · intro id hid hne
      have hne2 : next ≠ id := fun e => hne (congrArg some e)
      have hidlt : id < next := by omega
      by_cases hio : id = o
      · subst hio
        rw [List.count_append, count_pair, hocnt, if_pos rfl]
      · rw [List.count_append, count_pair, if_neg hio,
          h2 id hidlt (fun e => hio (by injection e with e2; omega))]
    · intro id hid
      rw [List.count_append, count_pair, if_neg (by omega),
        h3 id (by omega)]

theorem ledgerOk_clear {slot : Option Nat} {next : Nat} {revs : List Nat}
    (h : ledgerOk slot next revs) :
    ledgerOk (slotClear slot revs).1 next (slotClear slot revs).2 := by
  obtain ⟨h1, h2, h3⟩ := h
  cases slot with
  | none =>
    show ledgerOk none next revs
    refine ⟨?_, ?_, ?_⟩
    · intro o ho
      exact Option.noConfusion ho
    · intro id hid _
      exact h2 id hid (by simp)
    · exact h3
  | some o =>
    obtain ⟨holt, hocnt⟩ := h1 o rfl
    show ledgerOk none next (revs ++ [o, o])
    refine ⟨?_, ?_, ?_⟩
    · intro x hx
      exact Option.noConfusion hx
    · intro id hid _
      by_cases hio : id = o
      · subst hio
        rw [List.count_append, count_pair, hocnt, if_pos rfl]
      · rw [List.count_append, count_pair, if_neg hio,
          h2 id hid (fun e => hio (by injection e with e2; omega))]
    · intro id hid
      rw [List.count_append, count_pair, if_neg (by omega), h3 id hid]

/-- One coordinator step preserves both handle ledgers. -/
theorem invC8_step (op : Op) (s : CState) (h : InvC8 s) : InvC8 (step op s) := by
  rcases s with ⟨st, em, sf, pu, pn, pr, ru, rn, rr, pl⟩
  obtain ⟨hp, hr⟩ := h
  cases op with
  | select f =>
    cases f <;> cases pu <;> cases ru
    all_goals
      exact ⟨by first | exact hp | exact ledgerOk_clear hp | exact ledgerOk_replace hp,
             by first | exact hr | exact ledgerOk_clear hr⟩
  | submit o =>
    by_cases hg : (st = Status.uploading ∨ st = Status.processing)
    · simp only [step, hg, if_pos]
      exact ⟨hp, hr⟩
    · cases sf <;> cases o <;> cases ru
      all_goals
        simp only [step, hg, if_neg, handleSubmit, slotClear]
      all_goals
        exact ⟨hp, by first | exact hr | exact ledgerOk_clear hr⟩
  | deliver d =>
    cases pl <;> cases d <;> cases ru
    all_goals
      exact ⟨hp, by first | exact hr | exact ledgerOk_replace hr⟩
  | reset =>
    cases pu <;> cases ru
    all_goals
      exact ⟨by first | exact hp | exact ledgerOk_clear hp,
             by first | exact hr | exact ledgerOk_clear hr⟩

/-- Every reachable coordinator state satisfies both ledger invariants. -/
theorem run_invC8 (ops : List Op) : InvC8 (run ops) := by
  suffices h : ∀ s, InvC8 s → InvC8 (ops.foldl (fun s op => step op s) s) by
    refine h init0 ?_
    refine ⟨⟨?_, ?_, ?_⟩, ⟨?_, ?_, ?_⟩⟩ <;> intro x hx <;> simp_all [init0]
  induction ops with
  | nil => intro s hs; exact hs
  | cons op ops ih => intro s hs; exact ih _ (invC8_step op s hs)

/-- From the ledger invariant: at most one outstanding handle, and after a
final teardown every created handle was revoked once or twice. -/
theorem ledgerOk_conclusions {slot : Option Nat} {next : Nat} {revs : List Nat}
    (h : ledgerOk slot next revs) :
    (∀ id jd, id < next → jd < next → revs.count id = 0 →
      revs.count jd = 0 → id = jd) ∧
    (∀ id, id < next →
      1 ≤ (revs ++ tdApp slot).count id ∧
      (revs ++ tdApp slot).count id ≤ 2) := by
  obtain ⟨h1, h2, h3⟩ := h
  have hslot : ∀ id, id < next → revs.count id = 0 → slot = some id := by
    intro id hid hcnt
    by_contra hne
    rw [h2 id hid hne] at hcnt
    omega
  refine ⟨?_, ?_⟩
  · intro id jd hid hjd hcid hcjd
    have e1 := hslot id hid hcid
    have e2 := hslot jd hjd hcjd
    rw [e1] at e2
    exact Option.some.inj e2
  · intro id hid
    cases slot with
    | none =>
      have hc : revs.count id = 2 := h2 id hid (by simp)
      simp only [tdApp, List.count_append, List.count_nil]
      omega
    | some o =>
      obtain ⟨holt, hocnt⟩ := h1 o rfl
      by_cases hio : id = o
      · subst hio
        have : (tdApp (some id)).count id = 1 := by
          simp [tdApp]
        rw [List.count_append, hocnt, this]
        omega
      · have hc : revs.count id = 2 :=
          h2 id hid (fun e => hio (by injection e with e2; omega))
        have : (tdApp (some o)).count id = 0 := by
          simp [tdApp, hio]
        rw [List.count_append, hc, this]
        omega

/-- Claim C8 (amended): across every finite interleaving of coordinator
operations, at every point at most one handle per kind is outstanding
(never revoked), and after teardown every created handle has been revoked
at least once and at most twice: never leaked, but a replaced or cleared
handle receives a second, redundant revocation call from the useEffect
cleanup, so the exactly-once clause of the claim fails. -/
theorem C8_handle_ledger (ops : List Op) :
    (∀ id jd, id < (run ops).prevNext → jd < (run ops).prevNext →
      (run ops).prevRevs.count id = 0 → (run ops).prevRevs.count jd = 0 →
      id = jd) ∧
    (∀ id jd, id < (run ops).resNext → jd < (run ops).resNext →
      (run ops).resRevs.count id = 0 → (run ops).resRevs.count jd = 0 →
      id = jd) ∧
    (∀ id, id < (run ops).prevNext →
      1 ≤ (teardown (run ops)).prevRevs.count id ∧
      (teardown (run ops)).prevRevs.count id ≤ 2) ∧
    (∀ id, id < (run ops).resNext →
      1 ≤ (teardown (run ops)).resRevs.count id ∧
      (teardown (run ops)).resRevs.count id ≤ 2) := by
  obtain ⟨hp, hr⟩ := run_invC8 ops
  obtain ⟨hu1, ht1⟩ := ledgerOk_conclusions hp
  obtain ⟨hu2, ht2⟩ := ledgerOk_conclusions hr
  exact ⟨hu1, hu2, ht1, ht2⟩

/-- Claim C8 witness: one select creates preview handle 0; after teardown
it is revoked exactly once. -/
theorem C8_handle_ledger_witness :
    1 ≤ (teardown (run [.select true])).prevRevs.count 0 ∧
    (teardown (run [.select true])).prevRevs.count 0 ≤ 2 :=
  (C8_handle_ledger [.select true]).2.2.1 0 (by decide)

/-- Claim C8 counterexample: two selects create preview handles 0 and 1;
handle 0, replaced by the second select, receives two revocation calls
(inline plus effect cleanup), so it is not revoked exactly once. -/
theorem C8_counterexample :
    (run [.select true, .select true]).prevNext = 2 ∧
    (teardown (run [.select true, .select true])).prevRevs.count 0 = 2 := by
  decide

/-!
The analyze route.
-/

theorem truthy_some {o : Option String} {m : String} (h : truthy o = some m) :
    m ≠ "" := by
  cases o with
  | none => simp [truthy] at h
  | some s =>
    simp only [truthy] at h
    by_cases hs : s = ""
    · rw [if_pos hs] at h
      simp at h
    · rw [if_neg hs] at h
      injection h with h2
      exact h2 ▸ hs

theorem getErr_some {p : Option AnalyzeJson} {m : String}
    (h : getErr p = some m) : m ≠ "" := by
  cases p with
  | none => cases h
  | some j => exact truthy_some h

/-- Claim C7: the submit route maps each failure mode to its own distinct
error kind, with the spec-stated response in each case, and the success
case returns the task identifier from the body. -/
theorem C7_submit_error_taxonomy :
    (∀ f b, analyzeCore none f b =
      .configError "Missing HIJAB_BACKEND_URL configuration.") ∧
    (∀ c f b, truthy (some c) ≠ none → f = false →
      analyzeCore (some c) f b = .validationError "Image file is required.") ∧
    (∀ c, truthy (some c) ≠ none →
      analyzeCore (some c) true .throwE =
        .networkError "Unable to reach hijab processor backend.") ∧
    (∀ c st p m, truthy (some c) ≠ none → isOk st = false →
      getErr p = some m →
      analyzeCore (some c) true (.reply st p) = .backendError st m) ∧
    (∀ c st p, truthy (some c) ≠ none → isOk st = true →
      getTaskId p = none →
      analyzeCore (some c) true (.reply st p) =
        .protocolError "Backend did not return a task_id.") ∧
    (∀ c st p id, truthy (some c) ≠ none → isOk st = true →
      getTaskId p = some id →
      analyzeCore (some c) true (.reply st p) = .okTask id) ∧
    ((∀ m m', AnalyzeResult.configError m ≠ .validationError m') ∧
     (∀ m m', AnalyzeResult.configError m ≠ .networkError m') ∧
     (∀ m st m', AnalyzeResult.configError m ≠ .backendError st m') ∧
     (∀ m m', AnalyzeResult.configError m ≠ .protocolError m') ∧
     (∀ m m', AnalyzeResult.validationError m ≠ .networkError m') ∧
     (∀ m st m', AnalyzeResult.validationError m ≠ .backendError st m') ∧
     (∀ m m', AnalyzeResult.validationError m ≠ .protocolError m') ∧
     (∀ m st m', AnalyzeResult.networkError m ≠ .backendError st m') ∧
     (∀ m m', AnalyzeResult.networkError m ≠ .protocolError m') ∧
     (∀ st m m', AnalyzeResult.backendError st m ≠ .protocolError m')) := by
  refine ⟨?_, ?_, ?_, ?_, ?_, ?_, ?_⟩
  · intro f b
    simp [analyzeCore, truthy]
  · intro c f b hc hf
    subst hf
    simp [analyzeCore, hc]
  · intro c hc
    simp [analyzeCore, hc]
  · intro c st p m hc hst hm
    have hme : m ≠ "" := getErr_some hm
    simp [analyzeCore, hc, hst, hm, jsOr, hme]
  · intro c st p hc hst ht
    simp [analyzeCore, hc, hst, ht]
  · intro c st p id hc hst ht
    simp [analyzeCore, hc, hst, ht]
  · refine ⟨?_, ?_, ?_, ?_, ?_, ?_, ?_, ?_, ?_, ?_⟩ <;> intros <;> intro h <;>
      cases h

/-- Claim C7 witness: the theorem evaluated at one concrete input per
failure mode and at the success case. -/
theorem C7_submit_error_taxonomy_witness :
    analyzeCore none true (.reply 200 (some ⟨none, some "t1"⟩)) =
      .configError "Missing HIJAB_BACKEND_URL configuration." ∧
    analyzeCore (some "http://b") false (.reply 200 (some ⟨none, some "t1"⟩)) =
      .validationError "Image file is required." ∧
    analyzeCore (some "http://b") true .throwE =
      .networkError "Unable to reach hijab processor backend." ∧
    analyzeCore (some "http://b") true (.reply 500 (some ⟨some "boom", none⟩)) =
      .backendError 500 "boom" ∧
    analyzeCore (some "http://b") true (.reply 200 none) =
      .protocolError "Backend did not return a task_id." ∧
    analyzeCore (some "http://b") true (.reply 200 (some ⟨none, some "t1"⟩)) =
      .okTask "t1" :=
  ⟨C7_submit_error_taxonomy.1 true (.reply 200 (some ⟨none, some "t1"⟩)),
   C7_submit_error_taxonomy.2.1 "http://b" false (.reply 200 (some ⟨none, some "t1"⟩))
     (by decide) rfl,
   C7_submit_error_taxonomy.2.2.1 "http://b" (by decide),
   C7_submit_error_taxonomy.2.2.2.1 "http://b" 500 (some ⟨some "boom", none⟩)
     "boom" (by decide) (by decide) rfl,
   C7_submit_error_taxonomy.2.2.2.2.1 "http://b" 200 none (by decide)
     (by decide) rfl,
   C7_submit_error_taxonomy.2.2.2.2.2.1 "http://b" 200 (some ⟨none, some "t1"⟩)
     "t1" (by decide) (by decide) rfl⟩

end SitrWeb
